import Mathlib

/-!
Verification development for submit_payload.py of overture-stack/prelude.

The script is a linear four-step orchestration: it parses command-line
flags, builds four docker invocations by %-substitution into fixed
templates, runs them strictly in order (submit, manifest, upload,
publish), checks each exit status, extracts a UUID-shaped identifier
from the captured output of step 1 with a regular expression, and
substitutes that identifier into the manifest and publish invocations.

Everything below is a shallow embedding of that script: strings are
Lean strings, the regular-expression search is an explicit leftmost
scan, the four child processes are an oracle mapping the index of the
launched process to its exit code and captured streams, and the whole
run is a pure function returning the trace of launched commands, the
printed lines, the final exit code, and whether an unhandled fault
(the unguarded list index at line 65) occurred.
-/

set_option maxRecDepth 20000

namespace SubmitPayload

/-- Characters of the class [a-z0-9] used by the regular expression on
line 65 of submit_payload.py. -/
def isLowerAlnum (c : Char) : Bool :=
  (decide ('a' ≤ c) && decide (c ≤ 'z')) || (decide ('0' ≤ c) && decide (c ≤ '9'))

/-- Position-indexed check of the pattern
[a-z0-9]{8}-[a-z0-9]{4}-[a-z0-9]{4}-[a-z0-9]{4}-[a-z0-9]{12}:
a list matches starting at offset i when every position among 0..35
holds a dash at offsets 8, 13, 18, 23 and a lowercase alphanumeric
character elsewhere, and the list ends exactly at offset 36. -/
def shapeAux : Nat → List Char → Bool
  | i, [] => i == 36
  | i, c :: rest =>
    decide (i < 36) &&
      (if i == 8 || i == 13 || i == 18 || i == 23 then c == '-' else isLowerAlnum c) &&
      shapeAux (i + 1) rest

/-- A list of characters matches the UUID pattern of line 65. -/
def uuidShape (l : List Char) : Bool := shapeAux 0 l

/-- Leftmost match of the UUID pattern: the value of
re.findall(pattern, s)[0] when a match exists.  The scan tries every
start position from the left; a match is always exactly 36 characters. -/
def findUuid : List Char → Option (List Char)
  | [] => none
  | c :: rest =>
    if uuidShape ((c :: rest).take 36) then some ((c :: rest).take 36)
    else findUuid rest

/-- Whether the UUID pattern matches somewhere in the list, i.e.
re.findall returns a non-empty list. -/
def hasUuid (l : List Char) : Bool := (findUuid l).isSome

/-- The whitespace characters stripped by the Python str.strip method
(restricted to the ASCII whitespace characters, the only ones that can
matter here). -/
def isPySpace (c : Char) : Bool :=
  c == ' ' || c == '\t' || c == '\n' || c == '\r' ||
    c == Char.ofNat 11 || c == Char.ofNat 12

/-- Python str.strip(): remove leading and trailing whitespace. -/
def pyStrip (l : List Char) : List Char :=
  ((l.dropWhile isPySpace).reverse.dropWhile isPySpace).reverse

/-- Line 65 of submit_payload.py:
re.findall(pattern, stdout.decode("utf-8").strip())[0], as an Option:
none models the IndexError raised by the unguarded [0] when the
pattern does not match. -/
def extractAid (s : String) : Option (List Char) :=
  findUuid (pyStrip s.data)

/-- The configuration read from the parsed arguments (lines 28-33).
token, song_url, score_url and studyId are always strings: token is a
required flag, the other three have defaults.  json and directory have
neither required=True nor a default, so argparse leaves them at None
when the flag is absent; they are therefore Options here. -/
structure Config where
  token : String
  song_url : String
  score_url : String
  studyId : String
  json : Option String
  directory : Option String
deriving Repr, DecidableEq

/-- Which flags the caller supplied on the command line, by dest name. -/
structure SuppliedArgs where
  token : Option String
  song_url : Option String
  score_url : Option String
  studyId : Option String
  json : Option String
  directory : Option String
deriving Repr, DecidableEq

/-- The argument parser of lines 11-25.  Only -t (--token) carries
required=True; argparse exits with status 2 when a required flag is
missing (its declared default is then unreachable).  -a, -b and -s
fall back to their declared defaults; -j and -d have no default and
no required=True, so they parse to None when absent. -/
def parseArgs (a : SuppliedArgs) : Except Nat Config :=
  match a.token with
  | none => Except.error 2
  | some t =>
    Except.ok
      { token := t
        song_url := a.song_url.getD ("https://song.demo.overture.bio")
        score_url := a.score_url.getD ("https://score.demo.overture.bio")
        studyId := a.studyId.getD ("demoData")
        json := a.json
        directory := a.directory }

/-- Python %s formatting of a value that may be None: None prints as
the four characters None. -/
def pyS : Option String → String
  | none => "None"
  | some s => s

/-- The submit command of lines 35-45, after the backslash-newline
line continuations inside the template are removed, with the five %s
slots substituted in order: token, studyId, song_url, directory, json. -/
def submit_cmd (c : Config) : String :=
  "\ndocker run -e CLIENT_ACCESS_TOKEN=" ++ c.token ++
    " -e CLIENT_STUDY_ID=" ++ c.studyId ++
    " -e CLIENT_SERVER_URL=" ++ c.song_url ++
    " --network=\"host\" --mount type=bind,source=" ++ pyS c.directory ++
    ",target=/output ghcr.io/overture-stack/song-client sing submit -f /output/" ++
    pyS c.json ++ "\n"

/-- The manifest command of lines 69-79; the fifth %s slot receives the
extracted analysisId. -/
def manifest_cmd (c : Config) (analysisId : String) : String :=
  "\ndocker run -e CLIENT_ACCESS_TOKEN=" ++ c.token ++
    " -e CLIENT_STUDY_ID=" ++ c.studyId ++
    " -e CLIENT_SERVER_URL=" ++ c.song_url ++
    " --network=\"host\" --mount type=bind,source=" ++ pyS c.directory ++
    ",target=/output ghcr.io/overture-stack/song-client sing manifest -a " ++
    analysisId ++ " -f /output/manifest.txt -d /output/\n"

/-- The upload command of lines 100-110, substituting token, score_url,
song_url and directory; the analysisId is not among its parameters.
Unlike the other templates, its source= value is wrapped in double
quotes. -/
def upload_cmd (c : Config) : String :=
  "\ndocker run -e ACCESSTOKEN=" ++ c.token ++
    " -e STORAGE_URL=" ++ c.score_url ++
    " -e METADATA_URL=" ++ c.song_url ++
    " --network=\"host\" --mount type=bind,source=\"" ++ pyS c.directory ++
    "\",target=/output ghcr.io/overture-stack/score score-client upload --manifest /output/manifest.txt\n"

/-- The publish command of lines 130-140; the fifth %s slot receives
the extracted analysisId. -/
def publish_cmd (c : Config) (analysisId : String) : String :=
  "\ndocker run -e CLIENT_ACCESS_TOKEN=" ++ c.token ++
    " -e CLIENT_STUDY_ID=" ++ c.studyId ++
    " -e CLIENT_SERVER_URL=" ++ c.song_url ++
    " --network=\"host\" --mount type=bind,source=" ++ pyS c.directory ++
    ",target=/output ghcr.io/overture-stack/song-client sing publish -a " ++
    analysisId ++ "\n"

/-- The outcome of one child process: its exit status and captured
standard streams, already decoded. -/
structure ExecResult where
  returncode : Int
  stdout : String
  stderr : String
deriving Repr, DecidableEq

/-- Observable behavior of one whole run of the script: the commands
handed to subprocess.Popen in order, the lines written by print in
order, the exit status of the interpreter, and whether the run ended
in the unhandled IndexError of line 65 rather than a normal exit. -/
structure RunOutput where
  launched : List String
  printed : List String
  exitCode : Nat
  fault : Bool
deriving Repr, DecidableEq

/-- Whether u occurs as a contiguous segment of l. -/
def occursIn (u : List Char) : List Char → Bool
  | [] => u.isEmpty
  | c :: rest => ((c :: rest).take u.length == u) || occursIn u rest

/-- Lowercase hexadecimal digits, the character class the spec names
for the Analysis Identifier groups. -/
def lowerHex (c : Char) : Bool :=
  (decide ('0' ≤ c) && decide (c ≤ '9')) || (decide ('a' ≤ c) && decide (c ≤ 'f'))

/-- Whether a printed line is one of the command-announcement lines:
all four start with the seven characters of the word Running, and no
other print of the script produces such a line. -/
def startsWithRunning (s : String) : Bool :=
  s.data.take 7 == String.data ("Running")

/-- The exact announcement line printed for the k-th launched command:
line 47 formats step 1 as Running-cmd-colon, line 81 formats step 2
with a trailing space, lines 111 and 141 format steps 3 and 4 bare. -/
def runWrap (k : Nat) (cmd : String) : String :=
  if k = 0 then "Running " ++ cmd ++ " :"
  else if k = 1 then "Running : " ++ cmd ++ " "
  else "Running : " ++ cmd

/-- The announcement lines for a launch trace, in launch order, with
the index-dependent format of runWrap. -/
def runningLines : Nat → List String → List String
  | _, [] => []
  | k, cmd :: rest => runWrap k cmd :: runningLines (k + 1) rest

/-- A concrete configuration used by the witness theorems. -/
def cfgW : Config :=
  { token := "tok", song_url := "https://song", score_url := "https://score",
    studyId := "demoData", json := some ("meta.json"), directory := some ("/data") }

/-- Oracle in which every child process succeeds and step 1 prints an
identifier. -/
def envOkW : Nat → ExecResult := fun _ =>
  { returncode := 0, stdout := "id: ab12cd34-ef56-7890-ab12-cd34ef567890", stderr := "" }

/-- Oracle in which the third launched process (upload) fails. -/
def envFail3W : Nat → ExecResult := fun k =>
  if k = 2 then { returncode := 17, stdout := "out3", stderr := "err3" }
  else { returncode := 0, stdout := "id: ab12cd34-ef56-7890-ab12-cd34ef567890", stderr := "" }

/-- The identifier list used by witness theorems. -/
def aidW : List Char := String.data ("ab12cd34-ef56-7890-ab12-cd34ef567890")

/-- Oracle in which step 1 succeeds but prints no UUID-shaped text. -/
def envNoneW : Nat → ExecResult := fun _ =>
  { returncode := 0, stdout := "no identifier here", stderr := "" }

/-- The three diagnostic lines of each failure branch
(lines 59-61, 93-95, 123-125, 153-155). -/
def failPrints (r : ExecResult) : List String :=
  ["ERRORCODE : " ++ toString r.returncode ++ " ",
   "STDOUT : " ++ String.mk (pyStrip r.stdout.data) ++ " ",
   "STDERR : " ++ String.mk (pyStrip r.stderr.data) ++ " "]

/-- The whole script, lines 35-158, as a function of the configuration
and of an oracle giving the result of the k-th launched child process.
Each step prints its command line, launches it, and on non-zero exit
prints the diagnostics and exits with status 1; after step 1 the
analysisId is extracted from the captured standard output, and an
absent match is the unhandled IndexError (the interpreter then exits
with status 1 as well, with the fault flag set here to record that no
error branch ran). -/
def run (c : Config) (env : Nat → ExecResult) : RunOutput :=
  let c1 := submit_cmd c
  let p1 := ["Running " ++ c1 ++ " :"]
  let r1 := env 0
  if r1.returncode ≠ 0 then
    ⟨[c1], p1 ++ failPrints r1, 1, false⟩
  else
    match extractAid r1.stdout with
    | none => ⟨[c1], p1 ++ ["SUCCESS"], 1, true⟩
    | some aidL =>
      let aid := String.mk aidL
      let pA := p1 ++ ["SUCCESS", "analysisId generated : " ++ aid]
      let c2 := manifest_cmd c aid
      let p2 := pA ++ ["Running : " ++ c2 ++ " "]
      let r2 := env 1
      if r2.returncode ≠ 0 then
        ⟨[c1, c2], p2 ++ failPrints r2, 1, false⟩
      else
        let c3 := upload_cmd c
        let p3 := p2 ++ ["SUCCESS", "Running : " ++ c3]
        let r3 := env 2
        if r3.returncode ≠ 0 then
          ⟨[c1, c2, c3], p3 ++ failPrints r3, 1, false⟩
        else
          let c4 := publish_cmd c aid
          let p4 := p3 ++ ["SUCCESS", "Running : " ++ c4]
          let r4 := env 3
          if r4.returncode ≠ 0 then
            ⟨[c1, c2, c3, c4], p4 ++ failPrints r4, 1, false⟩
          else
            ⟨[c1, c2, c3, c4], p4 ++ ["SUCCESS"], 0, false⟩

lemma shapeAux_length : ∀ (l : List Char) (i : Nat), shapeAux i l = true → i + l.length = 36 := by
  intro l
  induction l with
  | nil =>
    intro i h
    simp only [shapeAux, beq_iff_eq] at h
    simpa using h
  | cons c rest ih =>
    intro i h
    simp only [shapeAux, Bool.and_eq_true, decide_eq_true_eq] at h
    have := ih (i + 1) h.2
    simp only [List.length_cons]
    omega

lemma uuid_length {u : List Char} (h : uuidShape u = true) : u.length = 36 := by
  have := shapeAux_length u 0 h
  omega

lemma uuid_ne_nil {u : List Char} (h : uuidShape u = true) : u ≠ [] := by
  intro hn
  have := uuid_length h
  rw [hn] at this
  simp at this

lemma shapeAux_chars : ∀ (l : List Char) (i : Nat), shapeAux i l = true →
    ∀ ch ∈ l, ch = '-' ∨ isLowerAlnum ch = true := by
  intro l
  induction l with
  | nil => intro i _ ch hch; simp at hch
  | cons c rest ih =>
    intro i h ch hch
    simp only [shapeAux, Bool.and_eq_true, decide_eq_true_eq] at h
    rcases List.mem_cons.mp hch with hc | hc
    · subst hc
      rcases h with ⟨⟨_, hhead⟩, _⟩
      by_cases hcond : (i == 8 || i == 13 || i == 18 || i == 23) = true
      · rw [if_pos hcond] at hhead
        exact Or.inl (by simpa using hhead)
      · rw [if_neg hcond] at hhead
        exact Or.inr hhead
    · exact ih (i + 1) h.2 ch hc

lemma uuid_chars {u : List Char} (h : uuidShape u = true) :
    ∀ ch ∈ u, ch = '-' ∨ isLowerAlnum ch = true :=
  shapeAux_chars u 0 h

lemma findUuid_sound : ∀ (l u : List Char), findUuid l = some u →
    uuidShape u = true ∧ ∃ p q, l = p ++ u ++ q := by
  intro l
  induction l with
  | nil => intro u h; simp [findUuid] at h
  | cons c rest ih =>
    intro u h
    rw [findUuid] at h
    by_cases hs : uuidShape ((c :: rest).take 36) = true
    · rw [if_pos hs] at h
      have hu : u = (c :: rest).take 36 := by
        injection h with h'
        exact h'.symm
      subst hu
      refine ⟨hs, [], (c :: rest).drop 36, ?_⟩
      simp [List.take_append_drop]
    · rw [if_neg hs] at h
      obtain ⟨hsh, p, q, hpq⟩ := ih u h
      exact ⟨hsh, c :: p, q, by simp [hpq]⟩

lemma findUuid_isSome_of_decomp {u : List Char} (hu : uuidShape u = true) :
    ∀ (p q : List Char), (findUuid (p ++ u ++ q)).isSome = true := by
  intro p
  induction p with
  | nil =>
    intro q
    have hl : u.length = 36 := uuid_length hu
    obtain ⟨c, rest, hcr⟩ := List.exists_cons_of_ne_nil (uuid_ne_nil hu)
    have htake : (u ++ q).take 36 = u := by
      rw [List.take_append_of_le_length (by omega)]
      rw [← hl, List.take_length]
    subst hcr
    have hstep : findUuid ((c :: rest) ++ q) =
        if uuidShape (((c :: rest) ++ q).take 36) = true then some (((c :: rest) ++ q).take 36)
        else findUuid (rest ++ q) := by
      simp [findUuid]
    rw [List.nil_append, hstep, htake, if_pos hu]
    rfl
  | cons c p' ih =>
    intro q
    rw [List.cons_append, List.cons_append, findUuid]
    by_cases hs : uuidShape ((c :: (p' ++ u ++ q)).take 36) = true
    · rw [if_pos hs]; rfl
    · rw [if_neg hs]
      exact ih q

lemma findUuid_leftmost {u : List Char} (hu : uuidShape u = true) :
    ∀ (p q : List Char),
      (∀ i, i < p.length → uuidShape (((p ++ u ++ q).drop i).take 36) = false) →
      findUuid (p ++ u ++ q) = some u := by
  intro p
  induction p with
  | nil =>
    intro q _
    have hl : u.length = 36 := uuid_length hu
    obtain ⟨c, rest, hcr⟩ := List.exists_cons_of_ne_nil (uuid_ne_nil hu)
    have htake : (u ++ q).take 36 = u := by
      rw [List.take_append_of_le_length (by omega)]
      rw [← hl, List.take_length]
    subst hcr
    have hstep : findUuid ((c :: rest) ++ q) =
        if uuidShape (((c :: rest) ++ q).take 36) = true then some (((c :: rest) ++ q).take 36)
        else findUuid (rest ++ q) := by
      simp [findUuid]
    rw [List.nil_append, hstep, htake, if_pos hu]
  | cons c p' ih =>
    intro q hfirst
    have h0 : uuidShape ((((c :: p') ++ u ++ q).drop 0).take 36) = false :=
      hfirst 0 (by simp)
    rw [List.drop_zero] at h0
    have hstep : findUuid ((c :: p') ++ u ++ q) =
        if uuidShape (((c :: p') ++ u ++ q).take 36) = true
        then some (((c :: p') ++ u ++ q).take 36)
        else findUuid (p' ++ u ++ q) := by
      simp [findUuid]
    rw [hstep, if_neg (by simp only [h0, Bool.false_eq_true, not_false_eq_true])]
    refine ih q ?_
    intro i hi
    have hsh := hfirst (i + 1) (by simp only [List.length_cons]; omega)
    simpa only [List.cons_append, List.drop_succ_cons] using hsh

lemma isLowerAlnum_of_isPySpace {c : Char} (hws : isPySpace c = true) :
    isLowerAlnum c = false := by
  simp only [isPySpace, Bool.or_eq_true, beq_iff_eq] at hws
  rcases hws with ((((h | h) | h) | h) | h) | h <;> subst h <;> decide

lemma not_dash_of_isPySpace {c : Char} (hws : isPySpace c = true) : c ≠ '-' := by
  simp only [isPySpace, Bool.or_eq_true, beq_iff_eq] at hws
  rcases hws with ((((h | h) | h) | h) | h) | h <;> subst h <;> decide

lemma findUuid_cons_ws {c : Char} (hws : isPySpace c = true) (l : List Char) :
    findUuid (c :: l) = findUuid l := by
  have hln : isLowerAlnum c = false := isLowerAlnum_of_isPySpace hws
  have hshape : uuidShape ((c :: l).take 36) = false := by
    rw [show (36 : Nat) = 35 + 1 from rfl, List.take_succ_cons]
    simp [uuidShape, shapeAux, hln]
  rw [findUuid, if_neg (by simp only [hshape, Bool.false_eq_true, not_false_eq_true])]

lemma findUuid_all_ws {w : List Char} (hw : ∀ c ∈ w, isPySpace c = true) :
    findUuid w = none := by
  induction w with
  | nil => rfl
  | cons c rest ih =>
    rw [findUuid_cons_ws (hw c (by simp))]
    exact ih fun x hx => hw x (by simp [hx])

lemma findUuid_dropWhile (l : List Char) :
    findUuid (l.dropWhile isPySpace) = findUuid l := by
  induction l with
  | nil => rfl
  | cons c rest ih =>
    by_cases hc : isPySpace c = true
    · rw [List.dropWhile_cons_of_pos hc, ih, findUuid_cons_ws hc]
    · rw [List.dropWhile_cons_of_neg (by simp [hc])]

lemma findUuid_append_ws {w : List Char} (hw : ∀ c ∈ w, isPySpace c = true) :
    ∀ (m : List Char), findUuid (m ++ w) = findUuid m := by
  intro m
  induction m with
  | nil => rw [List.nil_append, findUuid_all_ws hw]; rfl
  | cons c m' ih =>
    cases hwn : w with
    | nil => simp
    | cons d w' =>
      subst hwn
      have hd : isPySpace d = true := hw d (by simp)
      have hstep : findUuid ((c :: m') ++ (d :: w')) =
          if uuidShape (((c :: m') ++ (d :: w')).take 36) = true
          then some (((c :: m') ++ (d :: w')).take 36)
          else findUuid (m' ++ (d :: w')) := by
        simp [findUuid]
      have hstep' : findUuid (c :: m') =
          if uuidShape ((c :: m').take 36) = true
          then some ((c :: m').take 36)
          else findUuid m' := by
        simp [findUuid]
      by_cases hlen : 36 ≤ (c :: m').length
      · have htk : ((c :: m') ++ (d :: w')).take 36 = (c :: m').take 36 :=
          List.take_append_of_le_length hlen
        rw [hstep, hstep', htk]
        by_cases hs : uuidShape ((c :: m').take 36) = true
        · rw [if_pos hs, if_pos hs]
        · rw [if_neg hs, if_neg hs]
          exact ih
      · push_neg at hlen
        have hms : uuidShape ((c :: m').take 36) = false := by
          rw [List.take_of_length_le (by omega)]
          by_contra hcon
          rw [Bool.not_eq_false] at hcon
          have := uuid_length hcon
          omega
        have hbig : uuidShape (((c :: m') ++ (d :: w')).take 36) = false := by
          by_contra hcon
          rw [Bool.not_eq_false] at hcon
          have hdmem : d ∈ ((c :: m') ++ (d :: w')).take 36 := by
            rw [List.take_append_eq_append_take, List.take_of_length_le (by omega)]
            refine List.mem_append_right _ ?_
            obtain ⟨k, hk⟩ : ∃ k, 36 - (c :: m').length = k + 1 :=
              ⟨35 - (c :: m').length, by omega⟩
            rw [hk, List.take_succ_cons]
            exact List.mem_cons_self _ _
          rcases uuid_chars hcon d hdmem with h | h
          · exact absurd hd (by subst h; decide)
          · have hln := isLowerAlnum_of_isPySpace hd
            rw [hln] at h
            exact absurd h (by decide)
        rw [hstep, hstep', hms, hbig]
        simpa using ih

lemma pyStrip_split (l : List Char) :
    l.dropWhile isPySpace =
      pyStrip l ++ ((l.dropWhile isPySpace).reverse.takeWhile isPySpace).reverse := by
  have h := List.takeWhile_append_dropWhile isPySpace (l.dropWhile isPySpace).reverse
  calc l.dropWhile isPySpace
      = (l.dropWhile isPySpace).reverse.reverse := by rw [List.reverse_reverse]
    _ = ((l.dropWhile isPySpace).reverse.takeWhile isPySpace ++
          (l.dropWhile isPySpace).reverse.dropWhile isPySpace).reverse := by rw [h]
    _ = pyStrip l ++ ((l.dropWhile isPySpace).reverse.takeWhile isPySpace).reverse := by
          rw [List.reverse_append]; rfl

lemma findUuid_pyStrip (l : List Char) : findUuid (pyStrip l) = findUuid l := by
  have hws : ∀ c ∈ ((l.dropWhile isPySpace).reverse.takeWhile isPySpace).reverse,
      isPySpace c = true := by
    intro c hc
    rw [List.mem_reverse] at hc
    exact List.mem_takeWhile_imp hc
  calc findUuid (pyStrip l)
      = findUuid (pyStrip l ++
          ((l.dropWhile isPySpace).reverse.takeWhile isPySpace).reverse) :=
        (findUuid_append_ws hws _).symm
    _ = findUuid (l.dropWhile isPySpace) := by rw [← pyStrip_split]
    _ = findUuid l := findUuid_dropWhile l

lemma pyStrip_decomp (l : List Char) : ∃ w1 w2, l = w1 ++ pyStrip l ++ w2 := by
  refine ⟨l.takeWhile isPySpace,
    ((l.dropWhile isPySpace).reverse.takeWhile isPySpace).reverse, ?_⟩
  calc l = l.takeWhile isPySpace ++ l.dropWhile isPySpace :=
        (List.takeWhile_append_dropWhile isPySpace l).symm
    _ = l.takeWhile isPySpace ++
          (pyStrip l ++ ((l.dropWhile isPySpace).reverse.takeWhile isPySpace).reverse) := by
        rw [← pyStrip_split]
    _ = l.takeWhile isPySpace ++ pyStrip l ++
          ((l.dropWhile isPySpace).reverse.takeWhile isPySpace).reverse := by
        rw [List.append_assoc]

lemma occursIn_iff (u : List Char) : ∀ (l : List Char),
    occursIn u l = true ↔ ∃ p q, l = p ++ u ++ q := by
  intro l
  induction l with
  | nil =>
    simp only [occursIn, List.isEmpty_iff]
    constructor
    · intro h; exact ⟨[], [], by simp [h]⟩
    · rintro ⟨p, q, h⟩
      rcases List.append_eq_nil.mp h.symm with ⟨h1, h2⟩
      rcases List.append_eq_nil.mp h1 with ⟨_, h4⟩
      exact h4
  | cons c rest ih =>
    simp only [occursIn, Bool.or_eq_true, beq_iff_eq]
    constructor
    · rintro (h | h)
      · exact ⟨[], (c :: rest).drop u.length, by
          conv_lhs => rw [← List.take_append_drop u.length (c :: rest)]
          rw [h, List.nil_append]⟩
      · obtain ⟨p, q, hpq⟩ := ih.mp h
        exact ⟨c :: p, q, by simp [hpq]⟩
    · rintro ⟨p, q, hpq⟩
      cases p with
      | nil =>
        left
        rw [List.nil_append] at hpq
        rw [hpq, List.take_append_of_le_length (le_refl _), List.take_length]
      | cons p0 p' =>
        right
        rw [List.cons_append, List.cons_append] at hpq
        injection hpq with h1 h2
        exact ih.mpr ⟨p', q, h2⟩

lemma seg_append_cases {u a b : List Char} (p q : List Char) (h : a ++ b = p ++ u ++ q) :
    (∃ x y, a = x ++ u ++ y) ∨ (∃ x y, b = x ++ u ++ y) ∨
      (∃ s t, u = s ++ t ∧ s ≠ [] ∧ t ≠ [] ∧ (∃ x, a = x ++ s) ∧ ∃ y, b = t ++ y) := by
  rw [List.append_assoc] at h
  rcases List.append_eq_append_iff.mp h with ⟨x, hx1, hx2⟩ | ⟨y, hy1, hy2⟩
  · -- p = a ++ x and b = x ++ (u ++ q) : u sits inside b
    right; left
    exact ⟨x, q, by rw [hx2, List.append_assoc]⟩
  · -- a = p ++ y and u ++ q = y ++ b
    rcases List.append_eq_append_iff.mp hy2 with ⟨z, hz1, hz2⟩ | ⟨w, hw1, hw2⟩
    · -- y = u ++ z and q = z ++ b : u sits inside a
      left
      exact ⟨p, z, by rw [hy1, hz1, List.append_assoc]⟩
    · -- u = y ++ w and b = w ++ q
      cases hyn : y with
      | nil =>
        right; left
        refine ⟨[], q, ?_⟩
        rw [hyn, List.nil_append] at hw1
        rw [hw2, ← hw1, List.nil_append]
      | cons y0 y' =>
        cases hwn : w with
        | nil =>
          left
          refine ⟨p, [], ?_⟩
          rw [hwn, List.append_nil] at hw1
          rw [hy1, ← hw1, List.append_nil]
        | cons w0 w' =>
          right; right
          exact ⟨y, w, hw1, by rw [hyn]; simp, by rw [hwn]; simp,
            ⟨p, hy1⟩, ⟨q, hw2⟩⟩

lemma no_seg_of_hasUuid_false {u l : List Char} (hu : uuidShape u = true)
    (hl : hasUuid l = false) : ¬ ∃ p q, l = p ++ u ++ q := by
  rintro ⟨p, q, rfl⟩
  have := findUuid_isSome_of_decomp hu p q
  rw [hasUuid] at hl
  rw [this] at hl
  exact absurd hl (by decide)

lemma no_seg_nil {u : List Char} (hu : uuidShape u = true) :
    ¬ ∃ p q, ([] : List Char) = p ++ u ++ q :=
  no_seg_of_hasUuid_false hu rfl

lemma last_mem {s : List Char} (hs : s ≠ []) : ∃ ch, s.getLast? = some ch ∧ ch ∈ s := by
  refine ⟨s.getLast hs, ?_, List.getLast_mem hs⟩
  exact List.getLast?_eq_getLast s hs

lemma head_mem {s : List Char} (hs : s ≠ []) : ∃ ch, s.head? = some ch ∧ ch ∈ s := by
  cases s with
  | nil => exact absurd rfl hs
  | cons c rest => exact ⟨c, rfl, by simp⟩

lemma no_seg_lit_append {u lit rest : List Char} (hu : uuidShape u = true)
    (hlit : hasUuid lit = false)
    (hlast : ∀ ch, lit.getLast? = some ch → ¬(ch = '-' ∨ isLowerAlnum ch = true))
    (hrest : ¬ ∃ p q, rest = p ++ u ++ q) :
    ¬ ∃ p q, lit ++ rest = p ++ u ++ q := by
  rintro ⟨p, q, h⟩
  rcases seg_append_cases p q h with hcase | hcase | ⟨t1, t2, hsplit, hne1, hne2, ⟨x, hx⟩, _⟩
  · exact no_seg_of_hasUuid_false hu hlit hcase
  · exact hrest hcase
  · obtain ⟨ch, hch1, hch2⟩ := last_mem hne1
    have hlast' : lit.getLast? = some ch := by
      rw [hx, List.getLast?_append_of_ne_nil x hne1, hch1]
    have hchu : ch ∈ u := by
      rw [hsplit]
      exact List.mem_append_left _ hch2
    exact hlast ch hlast' (uuid_chars hu ch hchu)

lemma no_seg_param_append {u par rest : List Char} (hu : uuidShape u = true)
    (hpar : ¬ ∃ p q, par = p ++ u ++ q)
    (hhead : ∀ ch, rest.head? = some ch → ¬(ch = '-' ∨ isLowerAlnum ch = true))
    (hrest : ¬ ∃ p q, rest = p ++ u ++ q) :
    ¬ ∃ p q, par ++ rest = p ++ u ++ q := by
  rintro ⟨p, q, h⟩
  rcases seg_append_cases p q h with hcase | hcase | ⟨t1, t2, hsplit, hne1, hne2, _, ⟨y, hy⟩⟩
  · exact hpar hcase
  · exact hrest hcase
  · obtain ⟨ch, hch1, hch2⟩ := head_mem hne2
    have hhead' : rest.head? = some ch := by
      rw [hy]
      cases ht2 : t2 with
      | nil => exact absurd ht2 hne2
      | cons a as => rw [ht2] at hch1; simpa using hch1
    have hchu : ch ∈ u := by
      rw [hsplit]
      exact List.mem_append_right _ hch2
    exact hhead ch hhead' (uuid_chars hu ch hchu)

end SubmitPayload

namespace SubmitPayload

/-- C3: when step 1 exits zero and its captured output contains no UUID-shaped
substring, the run stops after the submit command alone, prints SUCCESS but no
distinct error report, the interpreter exits with status 1, and the fault flag
records that the unguarded index raised an unhandled IndexError. -/
theorem extraction_fault_unhandled (c : Config) (env : Nat → ExecResult)
    (h0 : (env 0).returncode = 0) (hnone : extractAid (env 0).stdout = none) :
    run c env =
      ⟨[submit_cmd c], ["Running " ++ submit_cmd c ++ " :", "SUCCESS"], 1, true⟩ := by
  simp only [run, h0, hnone]
  rfl

/-- C9: when all four child processes exit zero and step 1 output yields an
identifier, exactly the four commands submit, manifest, upload, publish are
launched once each in that order (sequencing is structural in run: each
command is built and launched only after the previous result was inspected)
and the run terminates with exit status 0 and no fault. -/
theorem full_success_trace (c : Config) (env : Nat → ExecResult) (aidL : List Char)
    (hex : extractAid (env 0).stdout = some aidL)
    (hall : ∀ j, j < 4 → (env j).returncode = 0) :
    (run c env).launched =
        [submit_cmd c, manifest_cmd c (String.mk aidL), upload_cmd c,
         publish_cmd c (String.mk aidL)] ∧
      (run c env).exitCode = 0 ∧ (run c env).fault = false := by
  have h0 := hall 0 (by omega)
  have h1 := hall 1 (by omega)
  have h2 := hall 2 (by omega)
  have h3 := hall 3 (by omega)
  simp only [run, h0, h1, h2, h3, hex]
  simp

/-- C1: if step k (k among 0..3) is the first whose child process exits
non-zero, the run exits with status 1, launches exactly k plus 1 commands (no
later command is built or launched), and the three diagnostic lines carrying
the exit code, stripped captured standard output and stripped captured
standard error are the last lines printed. -/
theorem halt_on_step_failure (c : Config) (env : Nat → ExecResult) (k : Nat)
    (hk : k < 4)
    (hprev : ∀ j, j < k → (env j).returncode = 0)
    (hex : 1 ≤ k → (extractAid (env 0).stdout).isSome = true)
    (hfail : (env k).returncode ≠ 0) :
    (run c env).exitCode = 1 ∧ (run c env).launched.length = k + 1 ∧
      ∃ pre, (run c env).printed = pre ++ failPrints (env k) := by
  interval_cases k
  · simp only [run, if_pos hfail]
    exact ⟨by simp, by simp, ["Running " ++ submit_cmd c ++ " :"], by simp⟩
  · have h0 := hprev 0 (by omega)
    obtain ⟨aidL, haid⟩ := Option.isSome_iff_exists.mp (hex (by omega))
    refine ⟨?_, ?_, ?_⟩ <;> simp [run, h0, haid, hfail]
    exact ⟨["Running " ++ submit_cmd c ++ " :", "SUCCESS",
      "analysisId generated : " ++ String.mk aidL,
      "Running : " ++ manifest_cmd c (String.mk aidL) ++ " "], by simp⟩
  · have h0 := hprev 0 (by omega)
    have h1 := hprev 1 (by omega)
    obtain ⟨aidL, haid⟩ := Option.isSome_iff_exists.mp (hex (by omega))
    refine ⟨?_, ?_, ?_⟩ <;> simp [run, h0, h1, haid, hfail]
    exact ⟨["Running " ++ submit_cmd c ++ " :", "SUCCESS",
      "analysisId generated : " ++ String.mk aidL,
      "Running : " ++ manifest_cmd c (String.mk aidL) ++ " ", "SUCCESS",
      "Running : " ++ upload_cmd c], by simp⟩
  · have h0 := hprev 0 (by omega)
    have h1 := hprev 1 (by omega)
    have h2 := hprev 2 (by omega)
    obtain ⟨aidL, haid⟩ := Option.isSome_iff_exists.mp (hex (by omega))
    refine ⟨?_, ?_, ?_⟩ <;> simp [run, h0, h1, h2, haid, hfail]
    exact ⟨["Running " ++ submit_cmd c ++ " :", "SUCCESS",
      "analysisId generated : " ++ String.mk aidL,
      "Running : " ++ manifest_cmd c (String.mk aidL) ++ " ", "SUCCESS",
      "Running : " ++ upload_cmd c, "SUCCESS",
      "Running : " ++ publish_cmd c (String.mk aidL)], by simp⟩

end SubmitPayload

namespace SubmitPayload

/-- Witness for C3 at a concrete configuration and oracle. -/
theorem extraction_fault_unhandled_witness :
    (envNoneW 0).returncode = 0 ∧ extractAid (envNoneW 0).stdout = none ∧
      run cfgW envNoneW =
        ⟨[submit_cmd cfgW], ["Running " ++ submit_cmd cfgW ++ " :", "SUCCESS"], 1, true⟩ :=
  ⟨rfl, by decide, extraction_fault_unhandled cfgW envNoneW rfl (by decide)⟩

/-- Witness for C9 at a concrete configuration and oracle. -/
theorem full_success_trace_witness :
    extractAid (envOkW 0).stdout =
        some (String.data ("ab12cd34-ef56-7890-ab12-cd34ef567890")) ∧
      (∀ j, j < 4 → (envOkW j).returncode = 0) ∧
      ((run cfgW envOkW).launched =
          [submit_cmd cfgW, manifest_cmd cfgW (String.mk (String.data ("ab12cd34-ef56-7890-ab12-cd34ef567890"))),
           upload_cmd cfgW, publish_cmd cfgW (String.mk (String.data ("ab12cd34-ef56-7890-ab12-cd34ef567890")))] ∧
        (run cfgW envOkW).exitCode = 0 ∧ (run cfgW envOkW).fault = false) :=
  ⟨by decide, by decide,
    full_success_trace cfgW envOkW (String.data ("ab12cd34-ef56-7890-ab12-cd34ef567890"))
      (by decide) (by decide)⟩

/-- Witness for C1: the third step fails under a concrete oracle. -/
theorem halt_on_step_failure_witness :
    2 < 4 ∧ (∀ j, j < 2 → (envFail3W j).returncode = 0) ∧
      (1 ≤ 2 → (extractAid (envFail3W 0).stdout).isSome = true) ∧
      (envFail3W 2).returncode ≠ 0 ∧
      ((run cfgW envFail3W).exitCode = 1 ∧ (run cfgW envFail3W).launched.length = 2 + 1 ∧
        ∃ pre, (run cfgW envFail3W).printed = pre ++ failPrints (envFail3W 2)) :=
  ⟨by decide, by decide, by decide, by decide,
    halt_on_step_failure cfgW envFail3W 2 (by decide) (by decide) (by decide) (by decide)⟩

/-- C2: when the captured step 1 output decomposes as pre, u, post with u
matching the UUID pattern and no match starting inside pre, the extracted
Analysis Identifier is exactly u, the first such substring. -/
theorem first_uuid_extracted (s : String) (pre u post : List Char)
    (hdec : s.data = pre ++ u ++ post) (hu : uuidShape u = true)
    (hfirst : ∀ i, i < pre.length → uuidShape ((s.data.drop i).take 36) = false) :
    extractAid s = some u := by
  rw [extractAid, findUuid_pyStrip, hdec]
  refine findUuid_leftmost hu pre post ?_
  intro i hi
  have := hfirst i hi
  rwa [hdec] at this

/-- Witness for C2 at the concrete output named by the spec: the identifier
extracted from it is the embedded 36-character UUID. -/
theorem first_uuid_extracted_witness :
    String.data ("some text ab12cd34-ef56-7890-ab12-cd34ef567890 trailing") =
        String.data ("some text ") ++
          String.data ("ab12cd34-ef56-7890-ab12-cd34ef567890") ++ String.data (" trailing") ∧
      uuidShape (String.data ("ab12cd34-ef56-7890-ab12-cd34ef567890")) = true ∧
      (∀ i, i < (String.data ("some text ")).length →
        uuidShape (((String.data
          ("some text ab12cd34-ef56-7890-ab12-cd34ef567890 trailing")).drop i).take 36) = false) ∧
      extractAid ("some text ab12cd34-ef56-7890-ab12-cd34ef567890 trailing") =
        some (String.data ("ab12cd34-ef56-7890-ab12-cd34ef567890")) :=
  ⟨by decide, by decide, by decide,
    first_uuid_extracted ("some text ab12cd34-ef56-7890-ab12-cd34ef567890 trailing")
      (String.data ("some text ")) (String.data ("ab12cd34-ef56-7890-ab12-cd34ef567890"))
      (String.data (" trailing")) (by decide) (by decide) (by decide)⟩

/-- C5, evaluating the code at the failing input: whenever -t is absent the
parser rejects the invocation with argparse exit status 2 before any child
process is launched, although the same add_argument call declares a demo
default token, which required equals True makes unreachable; the spec treats
the demo default as reachable, which matches the declared default but not the
behavior. -/
theorem token_required_rejects (su sc st j d : Option String) :
    parseArgs ⟨none, su, sc, st, j, d⟩ = Except.error 2 := rfl

/-- C4 counterexample: with -j and -d both missing (and a token supplied),
argument parsing succeeds instead of rejecting the invocation, contradicting
the claim that the two flags are required arguments. -/
theorem json_dir_parse_accepts_cx :
    parseArgs ⟨some ("t0"), none, none, none, none, none⟩ =
      Except.ok ⟨"t0", "https://song.demo.overture.bio", "https://score.demo.overture.bio",
        "demoData", none, none⟩ := rfl

end SubmitPayload

namespace SubmitPayload

lemma data_append (a b : String) : (a ++ b).data = a.data ++ b.data := rfl

/-- C6 counterexample: extraction succeeds on an output whose only UUID-shaped
substring consists of the letter z in every group; the extracted identifier
therefore contains characters outside the lowercase hexadecimal digits, so not
every extracted identifier is hexadecimal and success does not require a
hexadecimal-shaped substring. -/
theorem extracted_id_hex_cx :
    extractAid ("zzzzzzzz-zzzz-zzzz-zzzz-zzzzzzzzzzzz") =
        some (String.data ("zzzzzzzz-zzzz-zzzz-zzzz-zzzzzzzzzzzz")) ∧
      (String.data ("zzzzzzzz-zzzz-zzzz-zzzz-zzzzzzzzzzzz")).all
        (fun ch => ch == '-' || lowerHex ch) = false :=
  ⟨by decide, by decide⟩

/-- C6 amended: extraction succeeds exactly when the output contains a
substring matching the 8-4-4-4-12 pattern over the lowercase alphanumeric
characters a to z and 0 to 9 (not merely hexadecimal), and every identifier
the extraction produces matches that alphanumeric pattern. -/
theorem extracted_id_alnum_shape (s : String) :
    ((extractAid s).isSome = true ↔
        ∃ p u q, s.data = p ++ u ++ q ∧ uuidShape u = true) ∧
      ∀ u, extractAid s = some u → uuidShape u = true := by
  constructor
  · constructor
    · intro h
      obtain ⟨u, hu⟩ := Option.isSome_iff_exists.mp h
      obtain ⟨hsh, p, q, hpq⟩ := findUuid_sound (pyStrip s.data) u hu
      obtain ⟨w1, w2, hw⟩ := pyStrip_decomp s.data
      refine ⟨w1 ++ p, u, q ++ w2, ?_, hsh⟩
      rw [hw, hpq]
      simp [List.append_assoc]
    · rintro ⟨p, u, q, hpq, hu⟩
      show (findUuid (pyStrip s.data)).isSome = true
      rw [findUuid_pyStrip, hpq]
      exact findUuid_isSome_of_decomp hu p q
  · intro u hu
    exact (findUuid_sound (pyStrip s.data) u hu).1

/-- Witness for C6 amended at a concrete output. -/
theorem extracted_id_alnum_shape_witness :
    extractAid ("xy 0a1b2c3d-4e5f-6071-8293-a4b5c6d7e8f9 tail") =
        some (String.data ("0a1b2c3d-4e5f-6071-8293-a4b5c6d7e8f9")) ∧
      uuidShape (String.data ("0a1b2c3d-4e5f-6071-8293-a4b5c6d7e8f9")) = true :=
  ⟨by decide,
    (extracted_id_alnum_shape ("xy 0a1b2c3d-4e5f-6071-8293-a4b5c6d7e8f9 tail")).2
      (String.data ("0a1b2c3d-4e5f-6071-8293-a4b5c6d7e8f9")) (by decide)⟩

/-- C4 amended: -j and -d carry neither required equals True nor a default, so
parsing succeeds with None for each when they are missing, and the submit
command is then built with the four characters None substituted, producing the
file argument /output/None. -/
theorem json_dir_optional_defaults (t : String) (su sc st : Option String) :
    parseArgs ⟨some t, su, sc, st, none, none⟩ =
        Except.ok ⟨t, su.getD ("https://song.demo.overture.bio"),
          sc.getD ("https://score.demo.overture.bio"), st.getD ("demoData"),
          none, none⟩ ∧
      ∃ p q, (submit_cmd ⟨t, su.getD ("https://song.demo.overture.bio"),
          sc.getD ("https://score.demo.overture.bio"), st.getD ("demoData"),
          none, none⟩).data = p ++ String.data ("/output/None") ++ q := by
  constructor
  · rfl
  · refine ⟨String.data ("\ndocker run -e CLIENT_ACCESS_TOKEN=") ++ t.data ++
      String.data (" -e CLIENT_STUDY_ID=") ++ (st.getD ("demoData")).data ++
      String.data (" -e CLIENT_SERVER_URL=") ++ (su.getD ("https://song.demo.overture.bio")).data ++
      String.data (" --network=\"host\" --mount type=bind,source=") ++ String.data ("None") ++
      String.data (",target=/output ghcr.io/overture-stack/song-client sing submit -f "),
      String.data ("\n"), ?_⟩
    simp only [submit_cmd, pyS, data_append, List.append_assoc, List.append_right_inj]
    decide

end SubmitPayload

namespace SubmitPayload

lemma data_mk (l : List Char) : (String.mk l).data = l := rfl

lemma no_seg_lit_append2 {u lit rest : List Char} (hu : uuidShape u = true)
    (hlit : hasUuid lit = false) (ch : Char) (hch : lit.getLast? = some ch)
    (hne : (ch == '-' || isLowerAlnum ch) = false)
    (hrest : ¬ ∃ p q, rest = p ++ u ++ q) : ¬ ∃ p q, lit ++ rest = p ++ u ++ q := by
  refine no_seg_lit_append hu hlit ?_ hrest
  intro ch2 hch2 hdisj
  rw [hch] at hch2
  injection hch2 with he
  subst he
  rcases hdisj with h | h
  · subst h; simp at hne
  · rw [h] at hne; simp at hne

lemma no_seg_param_append2 {u par rest : List Char} (hu : uuidShape u = true)
    (hpar : ¬ ∃ p q, par = p ++ u ++ q) (ch : Char) (hch : rest.head? = some ch)
    (hne : (ch == '-' || isLowerAlnum ch) = false)
    (hrest : ¬ ∃ p q, rest = p ++ u ++ q) : ¬ ∃ p q, par ++ rest = p ++ u ++ q := by
  refine no_seg_param_append hu hpar ?_ hrest
  intro ch2 hch2 hdisj
  rw [hch] at hch2
  injection hch2 with he
  subst he
  rcases hdisj with h | h
  · subst h; simp at hne
  · rw [h] at hne; simp at hne

lemma occursIn_false_no_seg {u l : List Char} (h : occursIn u l = false) :
    ¬ ∃ p q, l = p ++ u ++ q := by
  intro hex
  rw [(occursIn_iff u l).mpr hex] at h
  exact absurd h (by decide)

end SubmitPayload

namespace SubmitPayload

/-- C7: a UUID-shaped identifier that does not occur inside any configuration
value occurs verbatim in the manifest and publish commands built from it,
occurs in neither the submit command nor the upload command, and a run whose
step 1 yields that identifier launches the manifest command built from exactly
that identifier as its second command and, when a fourth command is launched
at all, the publish command built from exactly that identifier. -/
theorem analysis_id_placement (c : Config) (aid : List Char)
    (hu : uuidShape aid = true)
    (htok : occursIn aid c.token.data = false)
    (hstudy : occursIn aid c.studyId.data = false)
    (hsong : occursIn aid c.song_url.data = false)
    (hscore : occursIn aid c.score_url.data = false)
    (hdir : occursIn aid (pyS c.directory).data = false)
    (hjson : occursIn aid (pyS c.json).data = false) :
    (∃ p q, (manifest_cmd c (String.mk aid)).data = p ++ aid ++ q) ∧
      (∃ p q, (publish_cmd c (String.mk aid)).data = p ++ aid ++ q) ∧
      (¬ ∃ p q, (submit_cmd c).data = p ++ aid ++ q) ∧
      (¬ ∃ p q, (upload_cmd c).data = p ++ aid ++ q) ∧
      ∀ env : Nat → ExecResult, (env 0).returncode = 0 →
        extractAid (env 0).stdout = some aid →
        (run c env).launched[1]? = some (manifest_cmd c (String.mk aid)) ∧
        ∀ cmd4, (run c env).launched[3]? = some cmd4 →
          cmd4 = publish_cmd c (String.mk aid) := by
  refine ⟨?_, ?_, ?_, ?_, ?_⟩
  · refine ⟨String.data ("\ndocker run -e CLIENT_ACCESS_TOKEN=") ++ c.token.data ++
      String.data (" -e CLIENT_STUDY_ID=") ++ c.studyId.data ++
      String.data (" -e CLIENT_SERVER_URL=") ++ c.song_url.data ++
      String.data (" --network=\"host\" --mount type=bind,source=") ++ (pyS c.directory).data ++
      String.data (",target=/output ghcr.io/overture-stack/song-client sing manifest -a "),
      String.data (" -f /output/manifest.txt -d /output/\n"), ?_⟩
    simp only [manifest_cmd, data_append, data_mk, List.append_assoc]
  · refine ⟨String.data ("\ndocker run -e CLIENT_ACCESS_TOKEN=") ++ c.token.data ++
      String.data (" -e CLIENT_STUDY_ID=") ++ c.studyId.data ++
      String.data (" -e CLIENT_SERVER_URL=") ++ c.song_url.data ++
      String.data (" --network=\"host\" --mount type=bind,source=") ++ (pyS c.directory).data ++
      String.data (",target=/output ghcr.io/overture-stack/song-client sing publish -a "),
      String.data ("\n"), ?_⟩
    simp only [publish_cmd, data_append, data_mk, List.append_assoc]
  · have hform : (submit_cmd c).data =
        String.data ("\ndocker run -e CLIENT_ACCESS_TOKEN=") ++ (c.token.data ++
        (String.data (" -e CLIENT_STUDY_ID=") ++ (c.studyId.data ++
        (String.data (" -e CLIENT_SERVER_URL=") ++ (c.song_url.data ++
        (String.data (" --network=\"host\" --mount type=bind,source=") ++ ((pyS c.directory).data ++
        (String.data (",target=/output ghcr.io/overture-stack/song-client sing submit -f /output/") ++
        ((pyS c.json).data ++ String.data ("\n")))))))))) := by
      simp only [submit_cmd, data_append, List.append_assoc]
    rw [hform]
    apply no_seg_lit_append2 hu (by decide) '=' (by decide) (by decide)
    apply no_seg_param_append2 hu (occursIn_false_no_seg htok) ' ' (by rfl) (by decide)
    apply no_seg_lit_append2 hu (by decide) '=' (by decide) (by decide)
    apply no_seg_param_append2 hu (occursIn_false_no_seg hstudy) ' ' (by rfl) (by decide)
    apply no_seg_lit_append2 hu (by decide) '=' (by decide) (by decide)
    apply no_seg_param_append2 hu (occursIn_false_no_seg hsong) ' ' (by rfl) (by decide)
    apply no_seg_lit_append2 hu (by decide) '=' (by decide) (by decide)
    apply no_seg_param_append2 hu (occursIn_false_no_seg hdir) ',' (by rfl) (by decide)
    apply no_seg_lit_append2 hu (by decide) '/' (by decide) (by decide)
    apply no_seg_param_append2 hu (occursIn_false_no_seg hjson) '\n' (by rfl) (by decide)
    exact no_seg_of_hasUuid_false hu (by decide)
  · have hform : (upload_cmd c).data =
        String.data ("\ndocker run -e ACCESSTOKEN=") ++ (c.token.data ++
        (String.data (" -e STORAGE_URL=") ++ (c.score_url.data ++
        (String.data (" -e METADATA_URL=") ++ (c.song_url.data ++
        (String.data (" --network=\"host\" --mount type=bind,source=\"") ++ ((pyS c.directory).data ++
        String.data ("\",target=/output ghcr.io/overture-stack/score score-client upload --manifest /output/manifest.txt\n")))))))) := by
      simp only [upload_cmd, data_append, List.append_assoc]
    rw [hform]
    apply no_seg_lit_append2 hu (by decide) '=' (by decide) (by decide)
    apply no_seg_param_append2 hu (occursIn_false_no_seg htok) ' ' (by rfl) (by decide)
    apply no_seg_lit_append2 hu (by decide) '=' (by decide) (by decide)
    apply no_seg_param_append2 hu (occursIn_false_no_seg hscore) ' ' (by rfl) (by decide)
    apply no_seg_lit_append2 hu (by decide) '=' (by decide) (by decide)
    apply no_seg_param_append2 hu (occursIn_false_no_seg hsong) ' ' (by rfl) (by decide)
    apply no_seg_lit_append2 hu (by decide) '\"' (by decide) (by decide)
    apply no_seg_param_append2 hu (occursIn_false_no_seg hdir) '\"' (by rfl) (by decide)
    exact no_seg_of_hasUuid_false hu (by decide)
  · intro env h0 hex
    constructor
    · by_cases h1 : (env 1).returncode ≠ 0
      · simp [run, h0, hex, h1]
      · by_cases h2 : (env 2).returncode ≠ 0
        · simp [run, h0, hex, h1, h2]
        · by_cases h3 : (env 3).returncode ≠ 0 <;> simp [run, h0, hex, h1, h2, h3]
    · intro cmd4 hc4
      by_cases h1 : (env 1).returncode ≠ 0
      · simp [run, h0, hex, h1] at hc4
      · by_cases h2 : (env 2).returncode ≠ 0
        · simp [run, h0, hex, h1, h2] at hc4
        · by_cases h3 : (env 3).returncode ≠ 0
          · simp [run, h0, hex, h1, h2, h3] at hc4
            exact hc4.symm
          · simp [run, h0, hex, h1, h2, h3] at hc4
            exact hc4.symm

end SubmitPayload

namespace SubmitPayload

/-- C8: every built invocation passes configuration as environment variables
(CLIENT_ACCESS_TOKEN, CLIENT_STUDY_ID and CLIENT_SERVER_URL for the three
registrar commands; ACCESSTOKEN, STORAGE_URL and METADATA_URL for the upload
command), bind-mounts the configured directory to the fixed in-container path
/output, and runs a client subcommand whose file arguments reference paths
under /output. -/
theorem cmd_env_and_mount (c : Config) (aid : String) :
    (∃ p q, (submit_cmd c).data = p ++ (String.data ("-e CLIENT_ACCESS_TOKEN=") ++ c.token.data ++ String.data (" -e CLIENT_STUDY_ID=") ++ c.studyId.data ++ String.data (" -e CLIENT_SERVER_URL=") ++ c.song_url.data) ++ q) ∧
      (∃ p q, (submit_cmd c).data = p ++ (String.data ("--mount type=bind,source=") ++ (pyS c.directory).data ++ String.data (",target=/output ")) ++ q) ∧
      (∃ p q, (submit_cmd c).data = p ++ (String.data ("sing submit -f /output/") ++ (pyS c.json).data) ++ q) ∧
      (∃ p q, (manifest_cmd c aid).data = p ++ (String.data ("-e CLIENT_ACCESS_TOKEN=") ++ c.token.data ++ String.data (" -e CLIENT_STUDY_ID=") ++ c.studyId.data ++ String.data (" -e CLIENT_SERVER_URL=") ++ c.song_url.data) ++ q) ∧
      (∃ p q, (manifest_cmd c aid).data = p ++ (String.data ("--mount type=bind,source=") ++ (pyS c.directory).data ++ String.data (",target=/output ")) ++ q) ∧
      (∃ p q, (manifest_cmd c aid).data = p ++ (String.data ("sing manifest -a ") ++ aid.data ++ String.data (" -f /output/manifest.txt -d /output/")) ++ q) ∧
      (∃ p q, (upload_cmd c).data = p ++ (String.data ("-e ACCESSTOKEN=") ++ c.token.data ++ String.data (" -e STORAGE_URL=") ++ c.score_url.data ++ String.data (" -e METADATA_URL=") ++ c.song_url.data) ++ q) ∧
      (∃ p q, (upload_cmd c).data = p ++ (String.data ("--mount type=bind,source=\"") ++ (pyS c.directory).data ++ String.data ("\",target=/output ")) ++ q) ∧
      (∃ p q, (upload_cmd c).data = p ++ (String.data ("score-client upload --manifest /output/manifest.txt")) ++ q) ∧
      (∃ p q, (publish_cmd c aid).data = p ++ (String.data ("-e CLIENT_ACCESS_TOKEN=") ++ c.token.data ++ String.data (" -e CLIENT_STUDY_ID=") ++ c.studyId.data ++ String.data (" -e CLIENT_SERVER_URL=") ++ c.song_url.data) ++ q) ∧
      (∃ p q, (publish_cmd c aid).data = p ++ (String.data ("--mount type=bind,source=") ++ (pyS c.directory).data ++ String.data (",target=/output ")) ++ q) ∧
      (∃ p q, (publish_cmd c aid).data = p ++ (String.data ("sing publish -a ") ++ aid.data) ++ q) := by
  have s1 : ∃ p q, (submit_cmd c).data = p ++ (String.data ("-e CLIENT_ACCESS_TOKEN=") ++ c.token.data ++ String.data (" -e CLIENT_STUDY_ID=") ++ c.studyId.data ++ String.data (" -e CLIENT_SERVER_URL=") ++ c.song_url.data) ++ q :=
    ⟨String.data ("\ndocker run "),
     String.data (" --network=\"host\" --mount type=bind,source=") ++ (pyS c.directory).data ++ String.data (",target=/output ghcr.io/overture-stack/song-client sing submit -f /output/") ++ (pyS c.json).data ++ String.data ("\n"),
     by simp only [submit_cmd, manifest_cmd, upload_cmd, publish_cmd, data_append, List.append_assoc, List.cons_append, List.nil_append, List.append_nil]⟩
  have s2 : ∃ p q, (submit_cmd c).data = p ++ (String.data ("--mount type=bind,source=") ++ (pyS c.directory).data ++ String.data (",target=/output ")) ++ q :=
    ⟨String.data ("\ndocker run -e CLIENT_ACCESS_TOKEN=") ++ c.token.data ++ String.data (" -e CLIENT_STUDY_ID=") ++ c.studyId.data ++ String.data (" -e CLIENT_SERVER_URL=") ++ c.song_url.data ++ String.data (" --network=\"host\" "),
     String.data ("ghcr.io/overture-stack/song-client sing submit -f /output/") ++ (pyS c.json).data ++ String.data ("\n"),
     by simp only [submit_cmd, manifest_cmd, upload_cmd, publish_cmd, data_append, List.append_assoc, List.cons_append, List.nil_append, List.append_nil]⟩
  have s3 : ∃ p q, (submit_cmd c).data = p ++ (String.data ("sing submit -f /output/") ++ (pyS c.json).data) ++ q :=
    ⟨String.data ("\ndocker run -e CLIENT_ACCESS_TOKEN=") ++ c.token.data ++ String.data (" -e CLIENT_STUDY_ID=") ++ c.studyId.data ++ String.data (" -e CLIENT_SERVER_URL=") ++ c.song_url.data ++ String.data (" --network=\"host\" --mount type=bind,source=") ++ (pyS c.directory).data ++ String.data (",target=/output ghcr.io/overture-stack/song-client "),
     String.data ("\n"),
     by simp only [submit_cmd, manifest_cmd, upload_cmd, publish_cmd, data_append, List.append_assoc, List.cons_append, List.nil_append, List.append_nil]⟩
  have m1 : ∃ p q, (manifest_cmd c aid).data = p ++ (String.data ("-e CLIENT_ACCESS_TOKEN=") ++ c.token.data ++ String.data (" -e CLIENT_STUDY_ID=") ++ c.studyId.data ++ String.data (" -e CLIENT_SERVER_URL=") ++ c.song_url.data) ++ q :=
    ⟨String.data ("\ndocker run "),
     String.data (" --network=\"host\" --mount type=bind,source=") ++ (pyS c.directory).data ++ String.data (",target=/output ghcr.io/overture-stack/song-client sing manifest -a ") ++ aid.data ++ String.data (" -f /output/manifest.txt -d /output/\n"),
     by simp only [submit_cmd, manifest_cmd, upload_cmd, publish_cmd, data_append, List.append_assoc, List.cons_append, List.nil_append, List.append_nil]⟩
  have m2 : ∃ p q, (manifest_cmd c aid).data = p ++ (String.data ("--mount type=bind,source=") ++ (pyS c.directory).data ++ String.data (",target=/output ")) ++ q :=
    ⟨String.data ("\ndocker run -e CLIENT_ACCESS_TOKEN=") ++ c.token.data ++ String.data (" -e CLIENT_STUDY_ID=") ++ c.studyId.data ++ String.data (" -e CLIENT_SERVER_URL=") ++ c.song_url.data ++ String.data (" --network=\"host\" "),
     String.data ("ghcr.io/overture-stack/song-client sing manifest -a ") ++ aid.data ++ String.data (" -f /output/manifest.txt -d /output/\n"),
     by simp only [submit_cmd, manifest_cmd, upload_cmd, publish_cmd, data_append, List.append_assoc, List.cons_append, List.nil_append, List.append_nil]⟩
  have m3 : ∃ p q, (manifest_cmd c aid).data = p ++ (String.data ("sing manifest -a ") ++ aid.data ++ String.data (" -f /output/manifest.txt -d /output/")) ++ q :=
    ⟨String.data ("\ndocker run -e CLIENT_ACCESS_TOKEN=") ++ c.token.data ++ String.data (" -e CLIENT_STUDY_ID=") ++ c.studyId.data ++ String.data (" -e CLIENT_SERVER_URL=") ++ c.song_url.data ++ String.data (" --network=\"host\" --mount type=bind,source=") ++ (pyS c.directory).data ++ String.data (",target=/output ghcr.io/overture-stack/song-client "),
     String.data ("\n"),
     by simp only [submit_cmd, manifest_cmd, upload_cmd, publish_cmd, data_append, List.append_assoc, List.cons_append, List.nil_append, List.append_nil]⟩
  have u1 : ∃ p q, (upload_cmd c).data = p ++ (String.data ("-e ACCESSTOKEN=") ++ c.token.data ++ String.data (" -e STORAGE_URL=") ++ c.score_url.data ++ String.data (" -e METADATA_URL=") ++ c.song_url.data) ++ q :=
    ⟨String.data ("\ndocker run "),
     String.data (" --network=\"host\" --mount type=bind,source=\"") ++ (pyS c.directory).data ++ String.data ("\",target=/output ghcr.io/overture-stack/score score-client upload --manifest /output/manifest.txt\n"),
     by simp only [submit_cmd, manifest_cmd, upload_cmd, publish_cmd, data_append, List.append_assoc, List.cons_append, List.nil_append, List.append_nil]⟩
  have u2 : ∃ p q, (upload_cmd c).data = p ++ (String.data ("--mount type=bind,source=\"") ++ (pyS c.directory).data ++ String.data ("\",target=/output ")) ++ q :=
    ⟨String.data ("\ndocker run -e ACCESSTOKEN=") ++ c.token.data ++ String.data (" -e STORAGE_URL=") ++ c.score_url.data ++ String.data (" -e METADATA_URL=") ++ c.song_url.data ++ String.data (" --network=\"host\" "),
     String.data ("ghcr.io/overture-stack/score score-client upload --manifest /output/manifest.txt\n"),
     by simp only [submit_cmd, manifest_cmd, upload_cmd, publish_cmd, data_append, List.append_assoc, List.cons_append, List.nil_append, List.append_nil]⟩
  have u3 : ∃ p q, (upload_cmd c).data = p ++ (String.data ("score-client upload --manifest /output/manifest.txt")) ++ q :=
    ⟨String.data ("\ndocker run -e ACCESSTOKEN=") ++ c.token.data ++ String.data (" -e STORAGE_URL=") ++ c.score_url.data ++ String.data (" -e METADATA_URL=") ++ c.song_url.data ++ String.data (" --network=\"host\" --mount type=bind,source=\"") ++ (pyS c.directory).data ++ String.data ("\",target=/output ghcr.io/overture-stack/score "),
     String.data ("\n"),
     by simp only [submit_cmd, manifest_cmd, upload_cmd, publish_cmd, data_append, List.append_assoc, List.cons_append, List.nil_append, List.append_nil]⟩
  have p1 : ∃ p q, (publish_cmd c aid).data = p ++ (String.data ("-e CLIENT_ACCESS_TOKEN=") ++ c.token.data ++ String.data (" -e CLIENT_STUDY_ID=") ++ c.studyId.data ++ String.data (" -e CLIENT_SERVER_URL=") ++ c.song_url.data) ++ q :=
    ⟨String.data ("\ndocker run "),
     String.data (" --network=\"host\" --mount type=bind,source=") ++ (pyS c.directory).data ++ String.data (",target=/output ghcr.io/overture-stack/song-client sing publish -a ") ++ aid.data ++ String.data ("\n"),
     by simp only [submit_cmd, manifest_cmd, upload_cmd, publish_cmd, data_append, List.append_assoc, List.cons_append, List.nil_append, List.append_nil]⟩
  have p2 : ∃ p q, (publish_cmd c aid).data = p ++ (String.data ("--mount type=bind,source=") ++ (pyS c.directory).data ++ String.data (",target=/output ")) ++ q :=
    ⟨String.data ("\ndocker run -e CLIENT_ACCESS_TOKEN=") ++ c.token.data ++ String.data (" -e CLIENT_STUDY_ID=") ++ c.studyId.data ++ String.data (" -e CLIENT_SERVER_URL=") ++ c.song_url.data ++ String.data (" --network=\"host\" "),
     String.data ("ghcr.io/overture-stack/song-client sing publish -a ") ++ aid.data ++ String.data ("\n"),
     by simp only [submit_cmd, manifest_cmd, upload_cmd, publish_cmd, data_append, List.append_assoc, List.cons_append, List.nil_append, List.append_nil]⟩
  have p3 : ∃ p q, (publish_cmd c aid).data = p ++ (String.data ("sing publish -a ") ++ aid.data) ++ q :=
    ⟨String.data ("\ndocker run -e CLIENT_ACCESS_TOKEN=") ++ c.token.data ++ String.data (" -e CLIENT_STUDY_ID=") ++ c.studyId.data ++ String.data (" -e CLIENT_SERVER_URL=") ++ c.song_url.data ++ String.data (" --network=\"host\" --mount type=bind,source=") ++ (pyS c.directory).data ++ String.data (",target=/output ghcr.io/overture-stack/song-client "),
     String.data ("\n"),
     by simp only [submit_cmd, manifest_cmd, upload_cmd, publish_cmd, data_append, List.append_assoc, List.cons_append, List.nil_append, List.append_nil]⟩
  exact ⟨s1, s2, s3, m1, m2, m3, u1, u2, u3, p1, p2, p3⟩

end SubmitPayload

namespace SubmitPayload

lemma swr_true (a x b : String)
    (ha : 7 ≤ a.data.length) (hpre : a.data.take 7 == String.data ("Running")) :
    startsWithRunning (a ++ x ++ b) = true := by
  rw [startsWithRunning]
  have hd : (a ++ x ++ b).data = a.data ++ (x.data ++ b.data) := by
    simp only [data_append, List.append_assoc]
  rw [hd, List.take_append_of_le_length ha]
  exact hpre

lemma swr_false (a x b : String)
    (ha : 7 ≤ a.data.length) (hpre : (a.data.take 7 == String.data ("Running")) = false) :
    startsWithRunning (a ++ x ++ b) = false := by
  rw [startsWithRunning]
  have hd : (a ++ x ++ b).data = a.data ++ (x.data ++ b.data) := by
    simp only [data_append, List.append_assoc]
  rw [hd, List.take_append_of_le_length ha]
  exact hpre

lemma swr_r1 (x : String) : startsWithRunning ("Running " ++ x ++ " :") = true :=
  swr_true ("Running ") x (" :") (by decide) (by decide)

lemma swr_r2 (x : String) : startsWithRunning ("Running : " ++ x ++ " ") = true :=
  swr_true ("Running : ") x (" ") (by decide) (by decide)

lemma swr_r3 (x : String) : startsWithRunning ("Running : " ++ x) = true := by
  have h := swr_true ("Running : ") x ("") (by decide) (by decide)
  rwa [String.append_empty] at h

lemma swr_success : startsWithRunning ("SUCCESS") = false := by decide

lemma swr_aid (x : String) : startsWithRunning ("analysisId generated : " ++ x) = false := by
  have h := swr_false ("analysisId generated : ") x ("") (by decide) (by decide)
  rwa [String.append_empty] at h

lemma swr_err (x : String) : startsWithRunning ("ERRORCODE : " ++ x ++ " ") = false :=
  swr_false ("ERRORCODE : ") x (" ") (by decide) (by decide)

lemma swr_out (x : String) : startsWithRunning ("STDOUT : " ++ x ++ " ") = false :=
  swr_false ("STDOUT : ") x (" ") (by decide) (by decide)

lemma swr_serr (x : String) : startsWithRunning ("STDERR : " ++ x ++ " ") = false :=
  swr_false ("STDERR : ") x (" ") (by decide) (by decide)

lemma token_seg_submit (c : Config) :
    ∃ p q, (submit_cmd c).data = p ++ c.token.data ++ q :=
  ⟨String.data ("\ndocker run -e CLIENT_ACCESS_TOKEN="),
   String.data (" -e CLIENT_STUDY_ID=") ++ c.studyId.data ++
     String.data (" -e CLIENT_SERVER_URL=") ++ c.song_url.data ++
     String.data (" --network=\"host\" --mount type=bind,source=") ++ (pyS c.directory).data ++
     String.data (",target=/output ghcr.io/overture-stack/song-client sing submit -f /output/") ++
     (pyS c.json).data ++ String.data ("\n"),
   by simp only [submit_cmd, data_append, List.append_assoc, List.cons_append,
        List.nil_append, List.append_nil]⟩

lemma token_seg_manifest (c : Config) (aid : String) :
    ∃ p q, (manifest_cmd c aid).data = p ++ c.token.data ++ q :=
  ⟨String.data ("\ndocker run -e CLIENT_ACCESS_TOKEN="),
   String.data (" -e CLIENT_STUDY_ID=") ++ c.studyId.data ++
     String.data (" -e CLIENT_SERVER_URL=") ++ c.song_url.data ++
     String.data (" --network=\"host\" --mount type=bind,source=") ++ (pyS c.directory).data ++
     String.data (",target=/output ghcr.io/overture-stack/song-client sing manifest -a ") ++
     aid.data ++ String.data (" -f /output/manifest.txt -d /output/\n"),
   by simp only [manifest_cmd, data_append, List.append_assoc, List.cons_append,
        List.nil_append, List.append_nil]⟩

lemma token_seg_upload (c : Config) :
    ∃ p q, (upload_cmd c).data = p ++ c.token.data ++ q :=
  ⟨String.data ("\ndocker run -e ACCESSTOKEN="),
   String.data (" -e STORAGE_URL=") ++ c.score_url.data ++
     String.data (" -e METADATA_URL=") ++ c.song_url.data ++
     String.data (" --network=\"host\" --mount type=bind,source=\"") ++ (pyS c.directory).data ++
     String.data ("\",target=/output ghcr.io/overture-stack/score score-client upload --manifest /output/manifest.txt\n"),
   by simp only [upload_cmd, data_append, List.append_assoc, List.cons_append,
        List.nil_append, List.append_nil]⟩

lemma token_seg_publish (c : Config) (aid : String) :
    ∃ p q, (publish_cmd c aid).data = p ++ c.token.data ++ q :=
  ⟨String.data ("\ndocker run -e CLIENT_ACCESS_TOKEN="),
   String.data (" -e CLIENT_STUDY_ID=") ++ c.studyId.data ++
     String.data (" -e CLIENT_SERVER_URL=") ++ c.song_url.data ++
     String.data (" --network=\"host\" --mount type=bind,source=") ++ (pyS c.directory).data ++
     String.data (",target=/output ghcr.io/overture-stack/song-client sing publish -a ") ++
     aid.data ++ String.data ("\n"),
   by simp only [publish_cmd, data_append, List.append_assoc, List.cons_append,
        List.nil_append, List.append_nil]⟩

end SubmitPayload

namespace SubmitPayload

/-- C10: on every run and for every configuration, each launched command is
announced on standard output with its full text, token included, before the
step result is inspected: the lines starting with the word Running are exactly
the announcement lines of the launched commands in launch order, the first
printed line of any run announces the submit command, and the clear-text
access token occurs in every launched command. -/
theorem cmds_printed_before_exec (c : Config) (env : Nat → ExecResult) :
    (run c env).printed.filter startsWithRunning = runningLines 0 (run c env).launched ∧
      (run c env).printed.head? = some ("Running " ++ submit_cmd c ++ " :") ∧
      ∀ cmd ∈ (run c env).launched, ∃ p q, cmd.data = p ++ c.token.data ++ q := by
  by_cases h1 : (env 0).returncode ≠ 0
  · simp only [run, if_pos h1]
    refine ⟨?_, rfl, ?_⟩
    · simp [failPrints, List.filter, runningLines, runWrap,
        swr_r1, swr_err, swr_out, swr_serr]
    · intro cmd hcmd
      simp only [List.mem_cons, List.not_mem_nil, or_false] at hcmd
      subst hcmd
      exact token_seg_submit c
  · cases hex : extractAid (env 0).stdout with
    | none =>
      simp only [run, if_neg h1, hex]
      refine ⟨?_, rfl, ?_⟩
      · simp [List.filter, runningLines, runWrap, swr_r1, swr_success]
      · intro cmd hcmd
        simp only [List.mem_cons, List.not_mem_nil, or_false] at hcmd
        subst hcmd
        exact token_seg_submit c
    | some aidL =>
      by_cases h2 : (env 1).returncode ≠ 0
      · simp only [run, if_neg h1, hex, if_pos h2]
        refine ⟨?_, rfl, ?_⟩
        · simp [failPrints, List.filter, runningLines, runWrap,
            swr_r1, swr_r2, swr_success, swr_aid, swr_err, swr_out, swr_serr]
        · intro cmd hcmd
          simp only [List.mem_cons, List.not_mem_nil, or_false] at hcmd
          rcases hcmd with h | h <;> subst h
          · exact token_seg_submit c
          · exact token_seg_manifest c _
      · by_cases h3 : (env 2).returncode ≠ 0
        · simp only [run, if_neg h1, hex, if_neg h2, if_pos h3]
          refine ⟨?_, rfl, ?_⟩
          · simp [failPrints, List.filter, runningLines, runWrap,
              swr_r1, swr_r2, swr_r3, swr_success, swr_aid, swr_err, swr_out, swr_serr]
          · intro cmd hcmd
            simp only [List.mem_cons, List.not_mem_nil, or_false] at hcmd
            rcases hcmd with h | h | h <;> subst h
            · exact token_seg_submit c
            · exact token_seg_manifest c _
            · exact token_seg_upload c
        · by_cases h4 : (env 3).returncode ≠ 0
          · simp only [run, if_neg h1, hex, if_neg h2, if_neg h3, if_pos h4]
            refine ⟨?_, rfl, ?_⟩
            · simp [failPrints, List.filter, runningLines, runWrap,
                swr_r1, swr_r2, swr_r3, swr_success, swr_aid, swr_err, swr_out, swr_serr]
            · intro cmd hcmd
              simp only [List.mem_cons, List.not_mem_nil, or_false] at hcmd
              rcases hcmd with h | h | h | h <;> subst h
              · exact token_seg_submit c
              · exact token_seg_manifest c _
              · exact token_seg_upload c
              · exact token_seg_publish c _
          · simp only [run, if_neg h1, hex, if_neg h2, if_neg h3, if_neg h4]
            refine ⟨?_, rfl, ?_⟩
            · simp [List.filter, runningLines, runWrap,
                swr_r1, swr_r2, swr_r3, swr_success, swr_aid]
            · intro cmd hcmd
              simp only [List.mem_cons, List.not_mem_nil, or_false] at hcmd
              rcases hcmd with h | h | h | h <;> subst h
              · exact token_seg_submit c
              · exact token_seg_manifest c _
              · exact token_seg_upload c
              · exact token_seg_publish c _

end SubmitPayload

namespace SubmitPayload

/-- Witness for C7 at a concrete configuration and identifier. -/
theorem analysis_id_placement_witness :
    uuidShape aidW = true ∧
      occursIn aidW cfgW.token.data = false ∧
      occursIn aidW cfgW.studyId.data = false ∧
      occursIn aidW cfgW.song_url.data = false ∧
      occursIn aidW cfgW.score_url.data = false ∧
      occursIn aidW (pyS cfgW.directory).data = false ∧
      occursIn aidW (pyS cfgW.json).data = false ∧
      ((∃ p q, (manifest_cmd cfgW (String.mk aidW)).data = p ++ aidW ++ q) ∧
        (∃ p q, (publish_cmd cfgW (String.mk aidW)).data = p ++ aidW ++ q) ∧
        (¬ ∃ p q, (submit_cmd cfgW).data = p ++ aidW ++ q) ∧
        (¬ ∃ p q, (upload_cmd cfgW).data = p ++ aidW ++ q) ∧
        ∀ env : Nat → ExecResult, (env 0).returncode = 0 →
          extractAid (env 0).stdout = some aidW →
          (run cfgW env).launched[1]? = some (manifest_cmd cfgW (String.mk aidW)) ∧
          ∀ cmd4, (run cfgW env).launched[3]? = some cmd4 →
            cmd4 = publish_cmd cfgW (String.mk aidW)) :=
  ⟨by decide, by decide, by decide, by decide, by decide, by decide, by decide,
    analysis_id_placement cfgW aidW (by decide) (by decide) (by decide) (by decide)
      (by decide) (by decide) (by decide)⟩

end SubmitPayload
